import Mathlib

/-!
Verification development for the repl-mcp session engine.

The definitions below are a shallow embedding of the TypeScript sources:
`src/prompt-detector.ts` (the `PromptDetector` class), `src/session-manager.ts`
(the `SessionManager` class) and the guidance-parsing part of the same class.
JavaScript strings are modelled as Lean `String`s (one `Char` per UTF-16 unit of
the inputs we consider), the `Map` fields of `SessionManager` as functions
`String → Option _`, and the host regular-expression engine as an explicit
regular-expression datatype with a derivative-based matcher, with each source
pattern transcribed as a term of that datatype.
-/

namespace ReplMcp

/-! ## JavaScript string primitives -/

/-- Characters treated as whitespace by JavaScript's `String.prototype.trim`
and by the regex class `\s` (restricted to the ASCII range plus NBSP, which is
all the inputs of interest contain). -/
def jsWhitespace (c : Char) : Bool :=
  c = ' ' || c = '\t' || c = '\n' || c = '\r' ||
  c = Char.ofNat 11 || c = Char.ofNat 12 || c = Char.ofNat 160

/-- Model of JavaScript `String.prototype.trim`. -/
def jsTrim (s : String) : String :=
  String.mk (((s.data.dropWhile jsWhitespace).reverse.dropWhile jsWhitespace).reverse)

/-- Model of JavaScript `String.prototype.startsWith`. -/
def listStartsWith : List Char → List Char → Bool
  | _, [] => true
  | [], _ :: _ => false
  | c :: cs, p :: ps => c = p && listStartsWith cs ps

def jsStartsWith (s pat : String) : Bool := listStartsWith s.data pat.data

/-- Model of JavaScript `String.prototype.substring(n)`. -/
def jsSubstringFrom (s : String) (n : Nat) : String := String.mk (s.data.drop n)

/-- Model of JavaScript `String.prototype.slice(start, stop)` for non-negative
arguments (the only ones the source produces). -/
def jsSliceNat (s : String) (start stop : Nat) : String :=
  String.mk ((s.data.take stop).drop start)

/-- Model of `output.replace(/\r\n/g, '\n')`: global left-to-right replacement
of CRLF pairs by LF. -/
def normCRLF : List Char → List Char
  | [] => []
  | '\r' :: '\n' :: rest => '\n' :: normCRLF rest
  | c :: rest => c :: normCRLF rest

/-- Model of JavaScript `x || default` on an optional string: `undefined` and
the empty string are falsy. -/
def jsOrString (o : Option String) (d : String) : String :=
  match o with
  | none => d
  | some s => if s = "" then d else s

/-- Model of JavaScript `x || default` on the result of `parseInt`: `NaN`
(here `none`) and `0` (including `-0`) are falsy. -/
def jsOrInt (o : Option Int) (d : Int) : Int :=
  match o with
  | none => d
  | some v => if v = 0 then d else v

/-- Digit value of a character in the given base, if any. -/
def digitVal (base : Nat) (c : Char) : Option Nat :=
  let v :=
    if c.isDigit then some (c.toNat - 48)
    else if 'a' ≤ c && c ≤ 'f' then some (c.toNat - 97 + 10)
    else if 'A' ≤ c && c ≤ 'F' then some (c.toNat - 65 + 10)
    else none
  match v with
  | some n => if n < base then some n else none
  | none => none

/-- Longest digit prefix in the given base; `none` when there is no digit at
all (JavaScript `parseInt` returns `NaN` in that case). -/
def parseDigits (base : Nat) : List Char → Option Nat → Option Nat
  | [], acc => acc
  | c :: cs, acc =>
    match digitVal base c with
    | some d => parseDigits base cs (some ((acc.getD 0) * base + d))
    | none => acc

/-- Model of JavaScript `parseInt(s)` with no radix argument: skip leading
whitespace, optional sign, `0x`/`0X` prefix switches to base 16, longest digit
prefix, `NaN` (`none`) when no digit is found. -/
def jsParseInt (s : String) : Option Int :=
  let cs := s.data.dropWhile jsWhitespace
  let (negSign, cs) :=
    match cs with
    | '-' :: rest => (true, rest)
    | '+' :: rest => (false, rest)
    | rest => (false, rest)
  let mag : Option Nat :=
    match cs with
    | '0' :: 'x' :: rest => parseDigits 16 rest none
    | '0' :: 'X' :: rest => parseDigits 16 rest none
    | rest => parseDigits 10 rest none
  mag.map (fun n => if negSign then -(n : Int) else (n : Int))

/-! ## Regular expressions

A small regular-expression language with character-class atoms and a
Brzozowski-derivative matcher.  Each JavaScript pattern of the source is
transcribed as a term of this language below. -/

inductive RE where
  | emp
  | eps
  | cls (p : Char → Bool)
  | seq (r1 r2 : RE)
  | alt (r1 r2 : RE)
  | star (r : RE)

def RE.nullable : RE → Bool
  | .emp => false
  | .eps => true
  | .cls _ => false
  | .seq a b => a.nullable && b.nullable
  | .alt a b => a.nullable || b.nullable
  | .star _ => true

/-- Smart constructors keep derivative terms small; they preserve the matched
language. -/
def RE.mkSeq : RE → RE → RE
  | .emp, _ => .emp
  | _, .emp => .emp
  | .eps, r => r
  | r, .eps => r
  | a, b => .seq a b

def RE.mkAlt : RE → RE → RE
  | .emp, r => r
  | r, .emp => r
  | a, b => .alt a b

def RE.derive : RE → Char → RE
  | .emp, _ => .emp
  | .eps, _ => .emp
  | .cls p, c => if p c then .eps else .emp
  | .seq a b, c =>
    if a.nullable then RE.mkAlt (RE.mkSeq (a.derive c) b) (b.derive c)
    else RE.mkSeq (a.derive c) b
  | .alt a b, c => RE.mkAlt (a.derive c) (b.derive c)
  | .star r, c => RE.mkSeq (r.derive c) (.star r)

/-- Whole-list match. -/
def RE.matches : RE → List Char → Bool
  | r, [] => r.nullable
  | r, c :: cs => (r.derive c).matches cs

/-- Does some suffix of the list match `r`?  This models an un-anchored
pattern that ends with `$` (without the `m` flag, `$` matches only at the very
end of the string). -/
def RE.matchesSuffix : RE → List Char → Bool
  | r, [] => r.nullable
  | r, c :: cs => r.matches (c :: cs) || r.matchesSuffix cs

/-- Split a list of characters at JavaScript line terminators, keeping empty
segments.  With the `m` flag, `^`/`$` anchor at these terminators, so a
`/^…$/m` pattern tests true on a string iff some segment matches. -/
def splitTerminators (cs : List Char) : List (List Char) :=
  match cs with
  | [] => [[]]
  | c :: rest =>
    let tail := splitTerminators rest
    if c = '\n' || c = '\r' then [] :: tail
    else match tail with
      | [] => [[c]]
      | seg :: segs => (c :: seg) :: segs

/-- `.test` of a `/^…$/m` pattern: some line segment matches fully. -/
def mTest (r : RE) (s : String) : Bool := (splitTerminators s.data).any r.matches

/-- Model of JavaScript `String.prototype.split('\n')` (keeps empty
segments; `""` splits to `[""]`). -/
def splitLF (cs : List Char) : List (List Char) :=
  match cs with
  | [] => [[]]
  | c :: rest =>
    let tail := splitLF rest
    if c = '\n' then [] :: tail
    else match tail with
      | [] => [[c]]
      | seg :: segs => (c :: seg) :: segs

/-- `.test` of an un-anchored pattern ending in `$` (no `m` flag): some suffix
of the whole string matches. -/
def endTest (r : RE) (s : String) : Bool := r.matchesSuffix s.data

def rchar (c : Char) : RE := .cls (fun x => x = c)

def rstr (s : String) : RE := s.data.foldr (fun c acc => RE.seq (rchar c) acc) .eps

def rcat (l : List RE) : RE := l.foldr RE.seq .eps

def rplus (r : RE) : RE := .seq r (.star r)

def rdigit : RE := .cls Char.isDigit

/-- The regex class `\s`. -/
def rws : RE := .cls jsWhitespace

def notParen : RE := .cls (fun c => c ≠ ')')

/-- `\u001b\[[0-9;]*F` for a class `F` of final letters. -/
def ransi (finals : Char → Bool) : RE :=
  rcat [rchar (Char.ofNat 27), rchar '[',
        .star (.cls (fun c => c.isDigit || c = ';')), .cls finals]

/-- `(?:\s*|\u001b\[[0-9;]*[A-Za-z])*` -/
def ansiTailGroup : RE := .star (.alt (.star rws) (ransi Char.isAlpha))

/-- `\s*` -/
def trailingWs : RE := .star rws

/-! ### The built-in prompt patterns of `PromptDetector`

Each definition transcribes the regex literal of `PROMPT_PATTERNS` /
`CONTINUATION_PATTERNS` in `src/prompt-detector.ts`. -/

/-- `/^\[\d+\] pry\([^)]+\)>(?:\s*|\u001b\[[0-9;]*[A-Za-z])*\s*$/m` -/
def pryPromptRE : RE :=
  rcat [rchar '[', rplus rdigit, rstr "] pry(", rplus notParen, rstr ")>",
        ansiTailGroup, trailingWs]

/-- `/^irb\([^)]+\):\d+[>*](?:\s*|\u001b\[[0-9;]*[A-Za-z])*\s*$/m` -/
def irbPromptRE : RE :=
  rcat [rstr "irb(", rplus notParen, rstr "):", rplus rdigit,
        .cls (fun c => c = '>' || c = '*'), ansiTailGroup, trailingWs]

/-- `/^In \[\d+\]:\s*$/m` -/
def ipythonPromptRE : RE :=
  rcat [rstr "In [", rplus rdigit, rstr "]:", trailingWs]

/-- `/^>\s*(?:\u001b\[[0-9;]*[mK])*\s*$/m` -/
def nodePromptRE : RE :=
  rcat [rchar '>', .star rws, .star (ransi (fun c => c = 'm' || c = 'K')), trailingWs]

/-- `/^>>>\s*$/m` -/
def pythonPromptRE : RE := rcat [rstr ">>>", trailingWs]

/-- `rails_console` uses the same literal as `pry`. -/
def railsConsolePromptRE : RE := pryPromptRE

/-- `/[a-zA-Z]:\\[^>]*?>\s*$/` (no `m` flag; end-anchored suffix match). -/
def cmdPromptRE : RE :=
  rcat [.cls Char.isAlpha, rchar ':', rchar '\\',
        .star (.cls (fun c => c ≠ '>')), rchar '>', trailingWs]

/-- `/\$\s*$/` -/
def bashPromptRE : RE := rcat [rchar '$', trailingWs]

/-- `/[%$#]\s*$/` -/
def zshPromptRE : RE := rcat [.cls (fun c => c = '%' || c = '$' || c = '#'), trailingWs]

/-- `/[$#%]\s*$/` -/
def customPromptRE : RE := rcat [.cls (fun c => c = '$' || c = '#' || c = '%'), trailingWs]

/-- `/^\[\d+\] pry\([^)]+\)\*(?:\s*|\u001b\[[0-9;]*[A-Za-z])*\s*$/m` -/
def pryContRE : RE :=
  rcat [rchar '[', rplus rdigit, rstr "] pry(", rplus notParen, rstr ")*",
        ansiTailGroup, trailingWs]

/-- `/^irb\([^)]+\):\d+\*(?:\s*|\u001b\[[0-9;]*[A-Za-z])*\s*$/m` -/
def irbContRE : RE :=
  rcat [rstr "irb(", rplus notParen, rstr "):", rplus rdigit, rchar '*',
        ansiTailGroup, trailingWs]

/-- `/^\.{3,}:\s*$/m` -/
def ipythonContRE : RE :=
  rcat [rchar '.', rchar '.', rchar '.', .star (rchar '.'), rchar ':', trailingWs]

/-- `/^\.\.\.\s*$/m` -/
def pythonContRE : RE := rcat [rstr "...", trailingWs]

/-- Insertion order of the keys of `PROMPT_PATTERNS` (the enumeration order of
`Object.entries`). -/
def promptKeys : List String :=
  ["pry", "irb", "ipython", "node", "python", "rails_console", "cmd", "bash", "zsh", "custom"]

/-- Insertion order of the keys of `CONTINUATION_PATTERNS`. -/
def contKeys : List String := ["pry", "irb", "ipython", "python"]

/-- `PROMPT_PATTERNS[ty].test(line)` (false for a key not in the record). -/
def promptTest (ty : String) (line : String) : Bool :=
  if ty = "pry" then mTest pryPromptRE line
  else if ty = "irb" then mTest irbPromptRE line
  else if ty = "ipython" then mTest ipythonPromptRE line
  else if ty = "node" then mTest nodePromptRE line
  else if ty = "python" then mTest pythonPromptRE line
  else if ty = "rails_console" then mTest railsConsolePromptRE line
  else if ty = "cmd" then endTest cmdPromptRE line
  else if ty = "bash" then endTest bashPromptRE line
  else if ty = "zsh" then endTest zshPromptRE line
  else if ty = "custom" then endTest customPromptRE line
  else false

/-- `CONTINUATION_PATTERNS[ty].test(line)` (false for a key not in the record). -/
def contTest (ty : String) (line : String) : Bool :=
  if ty = "pry" then mTest pryContRE line
  else if ty = "irb" then mTest irbContRE line
  else if ty = "ipython" then mTest ipythonContRE line
  else if ty = "python" then mTest pythonContRE line
  else false

/-- Whether `PROMPT_PATTERNS` has an entry for this key. -/
def hasPromptPattern (ty : String) : Bool := promptKeys.contains ty

/-- Whether `CONTINUATION_PATTERNS` has an entry for this key. -/
def hasContPattern (ty : String) : Bool := contKeys.contains ty

/-! ## ANSI stripping -/

/-- After `ESC [`, drop `[0-9;?]*` and then a final letter; `none` when no
final letter follows (then the sequence is not a CSI escape and is kept). -/
def dropCSIParams : List Char → Option (List Char)
  | [] => none
  | c :: rest =>
    if c.isDigit || c = ';' || c = '?' then dropCSIParams rest
    else if c.isAlpha then some rest
    else none

/-- Removal of `\u001b\[[0-9;?]*[A-Za-z]` escape sequences, fuel-structured
so that it reduces definitionally (every step consumes at least one character,
so fuel equal to the input length always suffices — the `0` arm is never hit
by `stripAnsiList`). -/
def stripAnsiFuel : Nat → List Char → List Char
  | _, [] => []
  | 0, l => l
  | _ + 1, [c] => [c]
  | fuel + 1, c1 :: c2 :: rest =>
    if c1 = Char.ofNat 27 && c2 = '[' then
      match dropCSIParams rest with
      | some rem => stripAnsiFuel fuel rem
      | none => c1 :: stripAnsiFuel fuel (c2 :: rest)
    else c1 :: stripAnsiFuel fuel (c2 :: rest)

/-- This models both the `strip-ansi` package call and the local `ansiRegex`
replacement in `PromptDetector.stripAnsiCodes` (on the CSI sequences both
recognize). -/
def stripAnsiList (l : List Char) : List Char := stripAnsiFuel l.length l

/-- `PromptDetector.stripAnsiCodes`:
`stripAnsi(str).trim().replace(ansiRegex, "")`. -/
def stripAnsiCodes (s : String) : String :=
  String.mk (stripAnsiList (jsTrim (String.mk (stripAnsiList s.data))).data)

/-! ## The prompt-detection engine -/

/-- `PromptInfo` of `src/types.ts`. -/
structure PromptInfo where
  detected : Bool
  type : String
  ready : Bool
  prompt : String
deriving DecidableEq, Repr

/-- The per-line cleaning step of `detectPrompt`:
`isCleanText ? line.trim() : PromptDetector.stripAnsiCodes(line).trim()`. -/
def cleanLineOf (isCleanText : Bool) (line : String) : String :=
  if isCleanText then jsTrim line else jsTrim (stripAnsiCodes line)

/-- The `Object.entries(PROMPT_PATTERNS)` loop of `testLineForPrompt`: first
matching built-in prompt pattern wins; `ready` is
`!continuationPattern || !continuationPattern.test(cleanLine)`; otherwise the
`Object.entries(CONTINUATION_PATTERNS)` loop, whose matches are never ready. -/
def genericPatternScan (cleanLine : String) : Option PromptInfo :=
  match promptKeys.find? (fun ty => promptTest ty cleanLine) with
  | some ty =>
    some { detected := true, type := ty,
           ready := !(hasContPattern ty && contTest ty cleanLine),
           prompt := cleanLine }
  | none =>
    match contKeys.find? (fun ty => contTest ty cleanLine) with
    | some ty => some { detected := true, type := ty, ready := false, prompt := cleanLine }
    | none => none

/-- `PromptDetector.testLineForPrompt`.  The parameter `learnedTest` abstracts
the host regex engine's treatment of a learned pattern (`new RegExp(p).test(l)`
when `p` compiles, else `l.includes(p)`); everything downstream is uniform in
it. -/
def testLineForPrompt (learnedTest : String → String → Bool) (cleanLine : String)
    (expectedType : Option String) (learnedPatterns : List String) : PromptInfo :=
  match learnedPatterns.find? (fun p => learnedTest p cleanLine) with
  | some _ =>
    { detected := true, type := jsOrString expectedType "learned",
      ready := true, prompt := cleanLine }
  | none =>
    let hinted : Option PromptInfo :=
      match expectedType with
      | some ty =>
        if ty ≠ "" && hasPromptPattern ty then
          if promptTest ty cleanLine then
            some { detected := true, type := ty, ready := true, prompt := cleanLine }
          else if hasContPattern ty && contTest ty cleanLine then
            some { detected := true, type := ty, ready := false, prompt := cleanLine }
          else none
        else none
      | none => none
    match hinted with
    | some r => r
    | none =>
      match genericPatternScan cleanLine with
      | some r => r
      | none => { detected := false, type := "unknown", ready := false, prompt := cleanLine }

/-- The reverse line scan of `detectPrompt`: skip lines that are blank after
cleaning, return the first line whose test reports `detected`. -/
def detectLoop (test : String → PromptInfo) (isCleanText : Bool) :
    List String → Option PromptInfo
  | [] => none
  | line :: rest =>
    let cleanLine := cleanLineOf isCleanText line
    if cleanLine = "" then detectLoop test isCleanText rest
    else
      let r := test cleanLine
      if r.detected then some r else detectLoop test isCleanText rest

/-- The fallback of `detectPrompt` when no line matches: the cleaned text of
the last non-blank line. -/
def lastNonEmptyClean (isCleanText : Bool) (lines : List String) : String :=
  match lines.reverse.find? (fun l => cleanLineOf isCleanText l ≠ "") with
  | some l => cleanLineOf isCleanText l
  | none => ""

/-- The skeleton of `detectPrompt`: normalize CRLF, split on LF, scan the
lines in reverse with the given per-line test, and fall back to a
`detected = false` report naming the last non-blank line.  (The
`lines.length === 0` guard of the source is kept although `split` never
returns an empty array.) -/
def detectCore (test : String → PromptInfo) (output : String)
    (isCleanText : Bool) : PromptInfo :=
  let lines := (splitLF (normCRLF output.data)).map String.mk
  if lines.length = 0 then
    { detected := false, type := "unknown", ready := false, prompt := "" }
  else
    match detectLoop test isCleanText lines.reverse with
    | some r => r
    | none =>
      { detected := false, type := "unknown", ready := false,
        prompt := lastNonEmptyClean isCleanText lines }

/-- `PromptDetector.detectPrompt`. -/
def detectPrompt (learnedTest : String → String → Bool) (output : String)
    (expectedType : Option String) (learnedPatterns : List String)
    (isCleanText : Bool) : PromptInfo :=
  detectCore (fun cl => testLineForPrompt learnedTest cl expectedType learnedPatterns)
    output isCleanText

/-! ## Claim C1: the priority order of `detectPrompt`

`testLineClaimC1` renders the claim's wording literally: on each candidate
line, after the learned patterns and the hinted type's prompt and continuation
patterns, every *other* built-in prompt pattern is tried in enumeration order
and a match yields `ready = true` unconditionally, then every built-in
continuation pattern yields `ready = false`.  `testLineAmendedC1` is the same
except that a built-in prompt match in the fourth step is ready only if the
matching type's own continuation pattern does not also match the line. -/

/-- The claim's fourth step consults "every other built-in prompt pattern":
the enumeration minus the hinted type, when the hint named a built-in. -/
def otherPromptKeys (expectedType : Option String) : List String :=
  match expectedType with
  | some ty =>
    if ty ≠ "" && hasPromptPattern ty then promptKeys.filter (fun k => k ≠ ty)
    else promptKeys
  | none => promptKeys

def genericScanClaimC1 (expectedType : Option String) (cleanLine : String) :
    Option PromptInfo :=
  match (otherPromptKeys expectedType).find? (fun ty => promptTest ty cleanLine) with
  | some ty => some { detected := true, type := ty, ready := true, prompt := cleanLine }
  | none =>
    match contKeys.find? (fun ty => contTest ty cleanLine) with
    | some ty => some { detected := true, type := ty, ready := false, prompt := cleanLine }
    | none => none

def genericScanAmendedC1 (expectedType : Option String) (cleanLine : String) :
    Option PromptInfo :=
  match (otherPromptKeys expectedType).find? (fun ty => promptTest ty cleanLine) with
  | some ty =>
    some { detected := true, type := ty,
           ready := !(hasContPattern ty && contTest ty cleanLine),
           prompt := cleanLine }
  | none =>
    match contKeys.find? (fun ty => contTest ty cleanLine) with
    | some ty => some { detected := true, type := ty, ready := false, prompt := cleanLine }
    | none => none

def testLineWithScan (scan : Option String → String → Option PromptInfo)
    (learnedTest : String → String → Bool) (cleanLine : String)
    (expectedType : Option String) (learnedPatterns : List String) : PromptInfo :=
  match learnedPatterns.find? (fun p => learnedTest p cleanLine) with
  | some _ =>
    { detected := true, type := jsOrString expectedType "learned",
      ready := true, prompt := cleanLine }
  | none =>
    let hinted : Option PromptInfo :=
      match expectedType with
      | some ty =>
        if ty ≠ "" && hasPromptPattern ty then
          if promptTest ty cleanLine then
            some { detected := true, type := ty, ready := true, prompt := cleanLine }
          else if hasContPattern ty && contTest ty cleanLine then
            some { detected := true, type := ty, ready := false, prompt := cleanLine }
          else none
        else none
      | none => none
    match hinted with
    | some r => r
    | none =>
      match scan expectedType cleanLine with
      | some r => r
      | none => { detected := false, type := "unknown", ready := false, prompt := cleanLine }

/-- `detectPrompt` as claim C1 literally describes it. -/
def detectPromptClaimC1 (learnedTest : String → String → Bool) (output : String)
    (expectedType : Option String) (learnedPatterns : List String)
    (isCleanText : Bool) : PromptInfo :=
  detectCore
    (fun cl => testLineWithScan genericScanClaimC1 learnedTest cl expectedType learnedPatterns)
    output isCleanText

/-- `detectPrompt` as the amended claim describes it. -/
def detectPromptAmendedC1 (learnedTest : String → String → Bool) (output : String)
    (expectedType : Option String) (learnedPatterns : List String)
    (isCleanText : Bool) : PromptInfo :=
  detectCore
    (fun cl => testLineWithScan genericScanAmendedC1 learnedTest cl expectedType learnedPatterns)
    output isCleanText

/-! ## The session manager

State of `SessionManager` in `src/session-manager.ts`.  The `Map` fields are
modelled as functions `String → Option _`; `Date` bookkeeping
(`createdAt`/`lastActivity`), the server-side terminal objects, and the log
ring buffers' contents are not needed by any claim and are omitted, except for
`sessionLogs` presence, which `destroySession` clears.  External process
handles are opaque apart from whether the underlying process is still alive. -/

inductive SessionStatus where
  | initializing
  | ready
  | executing
  | errorState
  | terminated
deriving DecidableEq, Repr

/-- An opaque `node-pty` handle; `alive` reflects whether the spawned process
is still running (external state, never read by the session manager itself). -/
structure ProcHandle where
  alive : Bool
deriving DecidableEq, Repr

/-- `SessionState` of `src/types.ts` (fields needed by the claims). -/
structure SessionState where
  id : String
  configType : String
  status : SessionStatus
  process : Option ProcHandle
  history : List String
  lastOutput : String
  lastError : Option String
  learnedPromptPatterns : List String
deriving DecidableEq, Repr

/-- The `Map`-valued fields of `SessionManager`. -/
structure SMState where
  sessions : String → Option SessionState
  outputBuffers : String → Option String
  sessionLogs : String → Option (List String)

def mapSet {α : Type} (m : String → Option α) (k : String) (v : α) :
    String → Option α :=
  fun x => if x = k then some v else m x

def mapRemove {α : Type} (m : String → Option α) (k : String) :
    String → Option α :=
  fun x => if x = k then none else m x

/-- Externally visible side effects of an operation, in program order. -/
inductive Act where
  | writePty (sessionId : String) (data : String)
  | killProc (sessionId : String)
  | removeFromRegistry (sessionId : String)
deriving DecidableEq, Repr

/-- Result shape of `sendSignal` / `setSessionReady` / `waitForSession` /
`markSessionFailed`. -/
structure OpResult where
  success : Bool
  message : Option String
  error : Option String
deriving DecidableEq, Repr

/-- `SessionManager.destroySession`: unknown id returns `false` untouched;
otherwise kill the process handle when present, then drop the session from
every map and return `true`. -/
def destroySession (s : SMState) (sessionId : String) : Bool × SMState × List Act :=
  match s.sessions sessionId with
  | none => (false, s, [])
  | some sess =>
    (true,
     { sessions := mapRemove s.sessions sessionId,
       outputBuffers := mapRemove s.outputBuffers sessionId,
       sessionLogs := mapRemove s.sessionLogs sessionId },
     (match sess.process with
      | some _ => [Act.killProc sessionId]
      | none => []) ++ [Act.removeFromRegistry sessionId])

/-- The control byte of `sendSignal`'s `switch` statement. -/
def controlCharFor (signal : String) : Option Char :=
  if signal = "SIGINT" then some (Char.ofNat 3)
  else if signal = "SIGTSTP" then some (Char.ofNat 26)
  else if signal = "SIGQUIT" then some (Char.ofNat 28)
  else none

def signalNameFor (signal : String) : String :=
  if signal = "SIGINT" then "Ctrl+C"
  else if signal = "SIGTSTP" then "Ctrl+Z"
  else if signal = "SIGQUIT" then "Ctrl+\\"
  else signal

/-- `SessionManager.sendSignal`: guards on session and process existence, then
writes the single translated control byte to the PTY.  Apart from the
unmodelled `lastActivity` timestamp, no session state is touched. -/
def sendSignal (s : SMState) (sessionId signal : String) :
    OpResult × SMState × List Act :=
  match s.sessions sessionId with
  | none =>
    ({ success := false, message := none,
       error := some ("Session " ++ sessionId ++ " not found") }, s, [])
  | some sess =>
    match sess.process with
    | none =>
      ({ success := false, message := none,
         error := some ("Session " ++ sessionId ++ " has no active process") }, s, [])
    | some _ =>
      match controlCharFor signal with
      | some c =>
        ({ success := true,
           message := some (signal ++ " sent as " ++ signalNameFor signal ++
             " character to session " ++ sessionId),
           error := none }, s,
         [Act.writePty sessionId (String.mk [c])])
      | none =>
        ({ success := false, message := none,
           error := some ("Unsupported signal: " ++ signal) }, s, [])

/-- `SessionManager.setSessionReady`: only checks that the session exists; the
supplied pattern is not recorded, the status is simply forced to `ready`. -/
def setSessionReady (s : SMState) (sessionId pattern : String) :
    OpResult × SMState :=
  match s.sessions sessionId with
  | none =>
    ({ success := false, message := none,
       error := some ("Session " ++ sessionId ++ " not found") }, s)
  | some sess =>
    ({ success := true,
       message := some ("Session " ++ sessionId ++
         " marked as ready with pattern: " ++ pattern),
       error := none },
     { s with sessions := mapSet s.sessions sessionId ({ sess with status := .ready }) })

structure SendOpts where
  waitForPromptFlag : Bool
  addNewline : Bool
deriving DecidableEq, Repr

inductive SendOutcome where
  | immediate
  | entersWait
deriving DecidableEq, Repr

/-- The synchronous prefix of `SessionManager.sendInput`: the not-found and
no-process guards throw; with `wait_for_prompt` the status is forced to
`executing` and the output buffer cleared before the write; the text written
is the input plus `\r` unless `add_newline` is false.  The asynchronous wait
that follows (for `wait_for_prompt = true`) is the polling primitive modelled
separately by `waitForPromptRun`. -/
def sendInput (s : SMState) (sessionId input : String) (opts : SendOpts) :
    Except String (SendOutcome × SMState × List Act) :=
  match s.sessions sessionId with
  | none => .error ("Session " ++ sessionId ++ " not found")
  | some sess =>
    match sess.process with
    | none => .error ("Session " ++ sessionId ++ " has no active process")
    | some _ =>
      let sess1 := if opts.waitForPromptFlag then { sess with status := .executing } else sess
      let s1 := { s with sessions := mapSet s.sessions sessionId sess1 }
      let s2 :=
        if opts.waitForPromptFlag then
          { s1 with outputBuffers := mapSet s1.outputBuffers sessionId "" }
        else s1
      let text := if opts.addNewline then input ++ "\r" else input
      .ok (if opts.waitForPromptFlag then SendOutcome.entersWait else SendOutcome.immediate,
           s2, [Act.writePty sessionId text])

/-- The `onExit` callback installed by `setupOutputHandlers`: sets the status
to `terminated` and records the exit code; the session stays in the registry
and its `process` field is not cleared. -/
def processExitUpdate (s : SMState) (sessionId : String) (exitCode : Int) : SMState :=
  match s.sessions sessionId with
  | none => s
  | some sess =>
    let sess' := { sess with status := SessionStatus.terminated, lastError := some ("Process exited with code " ++ toString exitCode) }
    { s with sessions := mapSet s.sessions sessionId sess' }

/-- The `onData` callback installed by `setupOutputHandlers`: appends the
chunk to the output buffer (`(outputBuffers.get(id) || '') + data`). -/
def appendOutput (s : SMState) (sessionId data : String) : SMState :=
  { s with outputBuffers :=
      mapSet s.outputBuffers sessionId (((s.outputBuffers sessionId).getD "") ++ data) }

/-! ## Guidance parsing and application -/

/-- `LLMGuidance` as a tagged variant (`action` plus its payload field). -/
inductive LLMGuidance where
  | ready (pattern : String)
  | send (command : String)
  | wait (seconds : Int)
  | failed (reason : String)
deriving DecidableEq, Repr

/-- `SessionManager.parseLLMResponse`. -/
def parseLLMResponse (response : String) : LLMGuidance :=
  let trimmed := jsTrim response
  if jsStartsWith trimmed "READY:" then .ready (jsSubstringFrom trimmed 6)
  else if jsStartsWith trimmed "SEND:" then .send (jsSubstringFrom trimmed 5)
  else if jsStartsWith trimmed "WAIT:" then
    .wait (jsOrInt (jsParseInt (jsSubstringFrom trimmed 5)) 3)
  else if jsStartsWith trimmed "FAILED:" then .failed (jsSubstringFrom trimmed 7)
  else .failed ("Could not parse LLM response: " ++ response)

/-- The learned-pattern insertion of `handleLLMGuidance`'s `ready` case:
`if (learnedPattern && !learnedPromptPatterns.includes(learnedPattern)) push`
(the empty pattern is falsy in JavaScript and is not inserted). -/
def learnedInsert (l : List String) (pattern : String) : List String :=
  if pattern ≠ "" && !l.contains pattern then l ++ [pattern] else l

/-- State change of `handleLLMGuidance`'s `ready` case on the session: insert
the pattern and force the status to `ready`. -/
def applyGuidanceReady (s : SMState) (sessionId : String) (sess : SessionState)
    (pattern : String) : SMState :=
  let sess' := { sess with learnedPromptPatterns := learnedInsert sess.learnedPromptPatterns pattern, status := SessionStatus.ready }
  { s with sessions := mapSet s.sessions sessionId sess' }

inductive GuidanceOutcome where
  | readyAck (rawOutput : String)
  | sentAndWaiting (command : String)
  | waitThenRetry (seconds : Int)
  | failedResult (reason : String)
deriving DecidableEq, Repr

/-- `SessionManager.handleLLMGuidance` (reached through
`answerSessionQuestion`): parse the response, then switch on the action.  The
`send`/`wait` cases re-enter the polling primitive afterwards; that
asynchronous continuation is represented by the outcome constructor. -/
def handleLLMGuidance (s : SMState) (sessionId response : String) :
    Except String (GuidanceOutcome × SMState × List Act) :=
  match s.sessions sessionId with
  | none => .error ("Session " ++ sessionId ++ " not found")
  | some sess =>
    match parseLLMResponse response with
    | .ready pattern =>
      .ok (.readyAck ((s.outputBuffers sessionId).getD ""),
           applyGuidanceReady s sessionId sess pattern, [])
    | .send command =>
      .ok (.sentAndWaiting command, s, [Act.writePty sessionId command])
    | .wait seconds =>
      .ok (.waitThenRetry seconds, s, [])
    | .failed reason =>
      let sess' := { sess with status := SessionStatus.errorState, lastError := some reason }
      .ok (.failedResult reason,
           { s with sessions := mapSet s.sessions sessionId sess' },
           [])

/-! ## Paginated buffer access -/

/-- Result shape of `SessionManager.getFullOutput` (optional fields are
`undefined` when absent). -/
structure FullOutputResult where
  success : Bool
  output : Option String
  totalLength : Option Nat
  offset : Option Nat
  length : Option Nat
  hasMore : Option Bool
  nextOffset : Option Nat
  error : Option String
deriving DecidableEq, Repr

/-- `SessionManager.getFullOutput` (exposed to callers as
`getBufferedOutput`).  JavaScript's `if (!fullOutput)` treats both a missing
buffer and an empty one as absent. -/
def getFullOutput (s : SMState) (sessionId : String) (offset limit : Nat) :
    FullOutputResult :=
  let fullOutput := (s.outputBuffers sessionId).getD ""
  if fullOutput = "" then
    { success := false, output := none, totalLength := none, offset := none,
      length := none, hasMore := none, nextOffset := none,
      error := some ("No output buffer found for session " ++ sessionId) }
  else
    let totalLength := fullOutput.length
    let endPos := min (offset + limit) totalLength
    let outputChunk := jsSliceNat fullOutput offset endPos
    let actualLength := outputChunk.length
    let hasMore := decide (endPos < totalLength)
    { success := true, output := some outputChunk, totalLength := some totalLength,
      offset := some offset, length := some actualLength, hasMore := some hasMore,
      nextOffset := if hasMore then some endPos else none, error := none }

/-! ## The polling primitive `waitForPrompt`

One tick of the `checkPrompt` loop observes the serialized terminal's current
cursor line (`getCurrentLineCleanText`, `null` when no terminal exists) and
the raw output buffer.  `hasSeenOutput` latches once the buffer is longer than
it was when the wait began; the loop resolves only when a ready prompt is
detected *and* the latch is set.  A run is the sequence of per-tick
observations up to the timeout deadline; exhausting it models the timeout
rejection (which carries the buffer, not a resolution). -/

structure PollTick where
  cleanText : Option String
  buffer : String

/-- One iteration of `checkPrompt`: returns the updated latch and whether the
promise resolves at this tick.  The body's two resolution sites (the
clean-text check, then the raw-output fallback) each require
`detected && ready && hasSeenOutput`, so together the tick resolves iff a
ready prompt is detected on either snapshot and the latch is set. -/
def pollStep (learnedTest : String → String → Bool) (cfgType : String)
    (learned : List String) (initLen : Nat) (hasSeen : Bool) (t : PollTick) :
    Bool × Bool :=
  let hasSeen' := hasSeen || decide (initLen < t.buffer.length)
  let cleanHit :=
    match t.cleanText with
    | some ct =>
      if ct ≠ "" then
        let pi := detectPrompt learnedTest ct (some cfgType) learned true
        pi.detected && pi.ready
      else false
    | none => false
  let rawHit :=
    let pi := detectPrompt learnedTest t.buffer (some cfgType) learned false
    pi.detected && pi.ready
  (hasSeen', (cleanHit || rawHit) && hasSeen')

/-- The `checkPrompt` loop over a finite trace of ticks; `none` is the timeout
rejection, `some buf` is resolution with the buffer current at that tick. -/
def waitForPromptRun (learnedTest : String → String → Bool) (cfgType : String)
    (learned : List String) (initLen : Nat) (hasSeen : Bool) :
    List PollTick → Option String
  | [] => none
  | t :: rest =>
    let step := pollStep learnedTest cfgType learned initLen hasSeen t
    if step.2 then some t.buffer
    else waitForPromptRun learnedTest cfgType learned initLen step.1 rest

/-! ## Session lifecycle transition system (for claim C5)

Each constructor is one mutation the source performs on a single session's
state, with the guards under which the code performs it. -/

/-- The session record as first created by `createSession` (before directory
validation and spawning). -/
def initialSession (id cfgType : String) : SessionState :=
  { id := id, configType := cfgType, status := .initializing, process := none,
    history := [], lastOutput := "", lastError := none, learnedPromptPatterns := [] }

/-- `history.push` followed by the `MAX_HISTORY_SIZE` truncation. -/
def historyPush (h : List String) (input : String) : List String :=
  let h' := h ++ [input]
  if h'.length > 10 then h'.drop (h'.length - 10) else h'

inductive SessStep : SessionState → SessionState → Prop where
  | spawn (s : SessionState) (h : ProcHandle)
      (hs : s.status = .initializing) (hp : s.process = none) :
      SessStep s { s with process := some h }
  | dirInvalid (s : SessionState) (msg : String)
      (hs : s.status = .initializing) (hp : s.process = none) :
      SessStep s { s with status := .errorState, lastError := some msg }
  | creationReady (s : SessionState)
      (hs : s.status = .initializing) (hp : s.process.isSome = true) :
      SessStep s { s with status := .ready }
  | creationFailed (s : SessionState) (msg : String)
      (hs : s.status = .initializing) :
      SessStep s { s with status := .errorState, lastError := some msg }
  | inputStart (s : SessionState) (hp : s.process.isSome = true) :
      SessStep s { s with status := .executing }
  | commandDone (s : SessionState) (input out : String)
      (hs : s.status = .executing) :
      SessStep s { s with status := .ready, lastOutput := out,
                          history := historyPush s.history input }
  | commandError (s : SessionState) (msg : String)
      (hs : s.status = .executing) :
      SessStep s { s with status := .errorState, lastError := some msg }
  | setReady (s : SessionState) :
      SessStep s { s with status := .ready }
  | markFailed (s : SessionState) (reason : String) :
      SessStep s { s with status := .errorState, lastError := some reason }
  | guidanceReady (s : SessionState) (pattern : String) :
      SessStep s { s with status := .ready,
                          learnedPromptPatterns := learnedInsert s.learnedPromptPatterns pattern }
  | procExit (s : SessionState) (code : Int) (hp : s.process.isSome = true) :
      SessStep s { s with status := .terminated,
                          lastError := some ("Process exited with code " ++ toString code) }

/-- A session state reachable from creation by the mutations above. -/
def SessReachable (s : SessionState) : Prop :=
  ∃ id cfgType, Relation.ReflTransGen SessStep (initialSession id cfgType) s

/-- The status set named by claim C5: ready, executing, or error with a
still-live process. -/
def claimC5StatusSet (s : SessionState) : Prop :=
  s.status = .ready ∨ s.status = .executing ∨
    (s.status = .errorState ∧ (∃ h, s.process = some h ∧ h.alive = true))

/-! ## Concrete states used by witnesses and counterexamples -/

def sampleSession : SessionState :=
  { id := "s1", configType := "python", status := .ready, process := some { alive := true },
    history := [], lastOutput := "", lastError := none, learnedPromptPatterns := [] }

def sampleState : SMState :=
  { sessions := mapSet (fun _ => none) "s1" sampleSession,
    outputBuffers := mapSet (fun _ => none) "s1" ">>> ",
    sessionLogs := fun _ => none }

/-- `sampleState` after its process exits externally. -/
def sampleTermState : SMState := processExitUpdate sampleState "s1" 0

/-- A state whose only session has a non-empty three-character buffer. -/
def sampleStateAbc : SMState :=
  { sessions := mapSet (fun _ => none) "s1" sampleSession,
    outputBuffers := mapSet (fun _ => none) "s1" "abc",
    sessionLogs := fun _ => none }

/-- A state whose only session exists but has an empty output buffer. -/
def sampleStateEmptyBuf : SMState :=
  { sessions := mapSet (fun _ => none) "s1" sampleSession,
    outputBuffers := mapSet (fun _ => none) "s1" "",
    sessionLogs := fun _ => none }

/-- The empty manager state (no sessions, no buffers). -/
def emptySMState : SMState :=
  { sessions := fun _ => none, outputBuffers := fun _ => none, sessionLogs := fun _ => none }

/-! ### Equality of the code's detector with the amended description -/

theorem find?_filter_ne {t : String → Bool} {x : String} (hx : t x = false) :
    ∀ l : List String, (l.filter (fun k => k ≠ x)).find? t = l.find? t := by
  have key : ∀ l : List String,
      List.find? (fun a => !decide (a = x) && t a) l = List.find? t l := by
    intro l
    induction l with
    | nil => rfl
    | cons a l ih =>
      rw [List.find?_cons, List.find?_cons]
      by_cases hax : a = x
      · subst hax
        simp [hx, ih]
      · simp [hax, ih]
  intro l
  simpa using key l

theorem promptTest_eq_false_of_not_has {ty : String} (cl : String)
    (h : hasPromptPattern ty = false) : promptTest ty cl = false := by
  have h1 : ty ≠ "pry" := by rintro rfl; revert h; decide
  have h2 : ty ≠ "irb" := by rintro rfl; revert h; decide
  have h3 : ty ≠ "ipython" := by rintro rfl; revert h; decide
  have h4 : ty ≠ "node" := by rintro rfl; revert h; decide
  have h5 : ty ≠ "python" := by rintro rfl; revert h; decide
  have h6 : ty ≠ "rails_console" := by rintro rfl; revert h; decide
  have h7 : ty ≠ "cmd" := by rintro rfl; revert h; decide
  have h8 : ty ≠ "bash" := by rintro rfl; revert h; decide
  have h9 : ty ≠ "zsh" := by rintro rfl; revert h; decide
  have h10 : ty ≠ "custom" := by rintro rfl; revert h; decide
  unfold promptTest
  rw [if_neg h1, if_neg h2, if_neg h3, if_neg h4, if_neg h5, if_neg h6, if_neg h7,
    if_neg h8, if_neg h9, if_neg h10]

theorem genericScanAmended_eq (hint : Option String) (cl : String)
    (h : ∀ ty, hint = some ty → promptTest ty cl = false) :
    genericScanAmendedC1 hint cl = genericPatternScan cl := by
  unfold genericScanAmendedC1 genericPatternScan
  have hkeys : (otherPromptKeys hint).find? (fun ty => promptTest ty cl)
      = promptKeys.find? (fun ty => promptTest ty cl) := by
    cases hint with
    | none => rfl
    | some ty =>
      have hty := h ty rfl
      dsimp only [otherPromptKeys]
      split
      · exact @find?_filter_ne (fun k => promptTest k cl) ty hty promptKeys
      · rfl
  rw [hkeys]

theorem testLine_eq_amended (lt : String → String → Bool) (cl : String)
    (hint : Option String) (lp : List String) :
    testLineWithScan genericScanAmendedC1 lt cl hint lp
      = testLineForPrompt lt cl hint lp := by
  unfold testLineWithScan testLineForPrompt
  cases hfind : lp.find? (fun p => lt p cl) with
  | some p => rfl
  | none =>
    simp only []
    cases hint with
    | none =>
      have := genericScanAmended_eq none cl (by intro ty hty; cases hty)
      simp only [this]
    | some ty =>
      by_cases hact : (ty ≠ "" && hasPromptPattern ty) = true
      · simp only [hact, if_true]
        cases hpt : promptTest ty cl with
        | true => simp [hpt]
        | false =>
          have := genericScanAmended_eq (some ty) cl
            (by intro ty' hty'; cases hty'; exact hpt)
          simp only [hpt, if_false, Bool.false_eq_true, this]
      · simp only [hact, if_false]
        have hhas : hasPromptPattern ty = false := by
          by_cases hempty : ty = ""
          · subst hempty; decide
          · simp [hempty] at hact
            exact hact
        have := genericScanAmended_eq (some ty) cl
          (by intro ty' hty'; cases hty'; exact promptTest_eq_false_of_not_has cl hhas)
        simp only [this]

theorem detectLoop_congr (t1 t2 : String → PromptInfo)
    (hc : ∀ cl, t1 cl = t2 cl) (b : Bool) :
    ∀ ls, detectLoop t1 b ls = detectLoop t2 b ls := by
  intro ls
  induction ls with
  | nil => rfl
  | cons l rest ih =>
    unfold detectLoop
    simp only [hc, ih]

theorem detectCore_congr (t1 t2 : String → PromptInfo) (h : ∀ cl, t1 cl = t2 cl) :
    ∀ o b, detectCore t1 o b = detectCore t2 o b := by
  intro o b
  unfold detectCore
  simp only [detectLoop_congr t1 t2 h b]

/-! ## Claim theorems -/

/-- C1, counterexample: on the single line `irb(main):001*` with no hint and
no learned patterns, the claim's fixed-priority description (step (d): a match
against a built-in non-continuation pattern yields `ready = true`) reports
`ready = true` via IRB's prompt pattern (whose `[>*]` class accepts the `*`
terminator), but the code's generic loop additionally consults IRB's
continuation pattern on the matched line and reports `ready = false`. -/
theorem claimC1_counterexample :
    (detectPromptClaimC1 (fun _ _ => false) "irb(main):001*" none [] false).ready = true
    ∧ detectPrompt (fun _ _ => false) "irb(main):001*" none [] false
        = { detected := true, type := "irb", ready := false, prompt := "irb(main):001*" } := by
  exact ⟨rfl, rfl⟩

/-- C1, amended: `detectPrompt` scans the snapshot's lines from the last line
backward, skipping lines blank after cleaning, and on each candidate line
tests, in order: every learned pattern, the hinted type's built-in prompt
pattern, the hinted type's continuation pattern, every other built-in prompt
pattern in enumeration order, then every built-in continuation pattern; the
first match ends the scan; matches in the learned and hinted-prompt steps
yield `ready = true` and continuation matches yield `ready = false`, but a
match of a built-in prompt pattern in the fourth step yields `ready = true`
only if the matching type's own continuation pattern does not also match the
line. -/
theorem claimC1_code_matches_amended_order :
    ∀ (lt : String → String → Bool) (output : String) (hint : Option String)
      (lp : List String) (isClean : Bool),
      detectPrompt lt output hint lp isClean
        = detectPromptAmendedC1 lt output hint lp isClean := by
  intro lt output hint lp isClean
  unfold detectPrompt detectPromptAmendedC1
  exact detectCore_congr _ _ (fun cl => (testLine_eq_amended lt cl hint lp).symm) output isClean

/-! ### C2: the no-new-output guard of `waitForPrompt` -/

theorem pollStep_fst (lt : String → String → Bool) (ty : String)
    (learned : List String) (initLen : Nat) (hs : Bool) (t : PollTick) :
    (pollStep lt ty learned initLen hs t).1
      = (hs || decide (initLen < t.buffer.length)) := rfl

theorem pollStep_resolved_latch (lt : String → String → Bool) (ty : String)
    (learned : List String) (initLen : Nat) (hs : Bool) (t : PollTick)
    (h : (pollStep lt ty learned initLen hs t).2 = true) :
    hs = true ∨ initLen < t.buffer.length := by
  have hfst : (hs || decide (initLen < t.buffer.length)) = true :=
    (Bool.and_eq_true _ _ |>.mp h).2
  rcases Bool.or_eq_true_iff.mp hfst with h1 | h1
  · exact Or.inl h1
  · exact Or.inr (of_decide_eq_true h1)

theorem waitRun_some_latch (lt : String → String → Bool) (ty : String)
    (learned : List String) (initLen : Nat) :
    ∀ (ticks : List PollTick) (hs : Bool) (out : String),
      waitForPromptRun lt ty learned initLen hs ticks = some out →
      hs = true ∨ ∃ t ∈ ticks, initLen < t.buffer.length := by
  intro ticks
  induction ticks with
  | nil =>
    intro hs out h
    simp [waitForPromptRun] at h
  | cons t rest ih =>
    intro hs out h
    unfold waitForPromptRun at h
    by_cases hres : (pollStep lt ty learned initLen hs t).2 = true
    · rcases pollStep_resolved_latch lt ty learned initLen hs t hres with h1 | h1
      · exact Or.inl h1
      · exact Or.inr ⟨t, List.mem_cons_self t rest, h1⟩
    · simp only [hres, if_false, Bool.false_eq_true] at h
      have hstep := h
      rcases ih _ _ hstep with h2 | h2
      · rw [pollStep_fst] at h2
        rcases Bool.or_eq_true_iff.mp h2 with h3 | h3
        · exact Or.inl h3
        · exact Or.inr ⟨t, List.mem_cons_self t rest, of_decide_eq_true h3⟩
      · rcases h2 with ⟨t2, ht2, hlen⟩
        exact Or.inr ⟨t2, List.mem_cons_of_mem t ht2, hlen⟩

/-- C2: `waitForPrompt` never resolves unless the output buffer has grown past
the length captured when the wait began: a resolving run contains a tick whose
buffer exceeds the initial length, and a run in which the buffer length always
equals the initial length ends in the timeout rejection even if every snapshot
matches a ready prompt pattern. -/
theorem claimC2_waitForPrompt_no_new_output :
    ∀ (lt : String → String → Bool) (ty : String) (learned : List String)
      (initLen : Nat) (ticks : List PollTick),
      (∀ out, waitForPromptRun lt ty learned initLen false ticks = some out →
        ∃ t ∈ ticks, initLen < t.buffer.length)
      ∧ ((∀ t ∈ ticks, t.buffer.length = initLen) →
        waitForPromptRun lt ty learned initLen false ticks = none) := by
  intro lt ty learned initLen ticks
  constructor
  · intro out h
    rcases waitRun_some_latch lt ty learned initLen ticks false out h with h1 | h1
    · cases h1
    · exact h1
  · intro hall
    cases hrun : waitForPromptRun lt ty learned initLen false ticks with
    | none => rfl
    | some out =>
      rcases waitRun_some_latch lt ty learned initLen ticks false out hrun with h1 | h1
      · cases h1
      · rcases h1 with ⟨t, ht, hlen⟩
        rw [hall t ht] at hlen
        exact absurd hlen (lt_irrefl _)

/-- Witness for C2: a one-tick trace whose buffer stays at the initial length
(a prompt-looking snapshot included) ends in timeout, and a resolving trace
for the Python prompt indeed contains a grown buffer. -/
theorem claimC2_witness :
    waitForPromptRun (fun _ _ => false) "python" [] 4 false
      [{ cleanText := none, buffer := ">>> " }] = none
    ∧ ∃ t ∈ [PollTick.mk none ">>> "], 0 < t.buffer.length := by
  constructor
  · exact (claimC2_waitForPrompt_no_new_output (fun _ _ => false) "python" [] 4
      [{ cleanText := none, buffer := ">>> " }]).2
      (by intro t ht; simp at ht; subst ht; rfl)
  · exact (claimC2_waitForPrompt_no_new_output (fun _ _ => false) "python" [] 0
      [PollTick.mk none ">>> "]).1 ">>> " rfl

/-! ### C3: finality of `terminated` -/

/-- C3, counterexample: after an external process exit the session's status is
`terminated`, yet its Registry entry is still present, `setSessionReady`
accepts it (returning success and flipping the status back to `ready`), and
`sendSignal` accepts it as well — so `terminated` is not final in the code. -/
theorem claimC3_counterexample :
    (sampleTermState.sessions "s1").map (fun ss => ss.status)
        = some SessionStatus.terminated
    ∧ (sampleTermState.sessions "s1").isSome = true
    ∧ (setSessionReady sampleTermState "s1" "pat").1.success = true
    ∧ ((setSessionReady sampleTermState "s1" "pat").2.sessions "s1").map
        (fun ss => ss.status) = some SessionStatus.ready
    ∧ (sendSignal sampleTermState "s1" "SIGINT").1.success = true := by
  exact ⟨rfl, rfl, rfl, rfl, rfl⟩

/-- C3, amended: explicit destroy removes the Registry entry, after which
sending input, sending a signal, marking ready and applying guidance all
refuse with a not-found result; external process exit, by contrast, sets the
status to `terminated` but leaves the entry in the Registry, and such a
session is still accepted: `setSessionReady` succeeds (returning the status to
`ready`) and, while the process handle is set, `sendSignal` succeeds too. -/
theorem claimC3_amended :
    ∀ (s : SMState) (sid : String) (sess : SessionState),
      s.sessions sid = some sess →
      (((destroySession s sid).2.1.sessions sid = none)
        ∧ (∀ input opts, sendInput (destroySession s sid).2.1 sid input opts
            = Except.error ("Session " ++ sid ++ " not found"))
        ∧ ((sendSignal (destroySession s sid).2.1 sid "SIGINT").1.success = false)
        ∧ (∀ p, (setSessionReady (destroySession s sid).2.1 sid p).1.success = false)
        ∧ (∀ resp, handleLLMGuidance (destroySession s sid).2.1 sid resp
            = Except.error ("Session " ++ sid ++ " not found")))
      ∧ (∀ code : Int,
          ((processExitUpdate s sid code).sessions sid).map (fun ss => ss.status)
              = some SessionStatus.terminated
          ∧ (∀ p, (setSessionReady (processExitUpdate s sid code) sid p).1.success = true
              ∧ ((setSessionReady (processExitUpdate s sid code) sid p).2.sessions sid).map
                  (fun ss => ss.status) = some SessionStatus.ready)
          ∧ (sess.process.isSome = true →
              (sendSignal (processExitUpdate s sid code) sid "SIGINT").1.success = true)) := by
  intro s sid sess h
  have hs' : (destroySession s sid).2.1.sessions sid = none := by
    unfold destroySession
    rw [h]
    simp [mapRemove]
  have hex : ∀ code : Int, (processExitUpdate s sid code).sessions sid
      = some ({ sess with status := SessionStatus.terminated, lastError := some ("Process exited with code " ++ toString code) }) := by
    intro code
    unfold processExitUpdate
    rw [h]
    simp [mapSet]
  constructor
  · refine ⟨hs', ?_, ?_, ?_, ?_⟩
    · intro input opts
      unfold sendInput
      rw [hs']
    · unfold sendSignal
      rw [hs']
    · intro p
      unfold setSessionReady
      rw [hs']
    · intro resp
      unfold handleLLMGuidance
      rw [hs']
  · intro code
    refine ⟨by rw [hex code]; rfl, ?_, ?_⟩
    · intro p
      constructor
      · unfold setSessionReady
        rw [hex code]
      · unfold setSessionReady
        rw [hex code]
        simp [mapSet]
    · intro hp
      obtain ⟨ph, hph⟩ := Option.isSome_iff_exists.mp hp
      unfold sendSignal
      rw [hex code]
      simp only [hph]
      rfl

/-- Witness for C3 (amended): concrete instances of both halves. -/
theorem claimC3_witness :
    (destroySession sampleState "s1").2.1.sessions "s1" = none
    ∧ (setSessionReady (processExitUpdate sampleState "s1" 0) "s1" "p").1.success = true := by
  have h := claimC3_amended sampleState "s1" sampleSession rfl
  exact ⟨h.1.1, ((h.2 0).2.1 "p").1⟩

/-! ### C4: learned prompt patterns -/

/-- C4, counterexample: `READY:` with an empty pattern is a guidance answer
whose pattern is not in the (empty) learned list, yet applying it grows the
list by zero elements, not one — the JavaScript guard
`if (learnedPattern && …)` treats the empty string as falsy. -/
theorem claimC4_counterexample :
    ∃ out s' acts,
      handleLLMGuidance sampleState "s1" "READY:" = Except.ok (out, s', acts)
      ∧ sampleSession.learnedPromptPatterns.contains "" = false
      ∧ (s'.sessions "s1").map (fun ss => ss.learnedPromptPatterns)
          = some ([] : List String) := by
  exact ⟨_, _, _, rfl, rfl, rfl⟩

/-- C4, amended: applying `Ready{pattern}` with a non-empty pattern not in the
session's learned list appends exactly that pattern; re-applying the same
pattern is an idempotent insert (the list grows by at most one across the two
applications); and no modeled operation removes learned patterns — `sendInput`,
`sendSignal`, `setSessionReady` and process exit leave the list unchanged and
guidance application only extends it. -/
theorem claimC4_amended :
    (∀ (s : SMState) (sid : String) (sess : SessionState) (p : String),
        s.sessions sid = some sess → p ≠ "" →
        sess.learnedPromptPatterns.contains p = false →
        ((applyGuidanceReady s sid sess p).sessions sid).map
            (fun ss => ss.learnedPromptPatterns)
          = some (sess.learnedPromptPatterns ++ [p]))
    ∧ (∀ (l : List String) (p : String),
        learnedInsert (learnedInsert l p) p = learnedInsert l p
        ∧ (learnedInsert l p).length ≤ l.length + 1)
    ∧ (∀ (s : SMState) (sid input : String) (opts : SendOpts)
          (r : SendOutcome × SMState × List Act) (sess sess' : SessionState),
        sendInput s sid input opts = Except.ok r → s.sessions sid = some sess →
        r.2.1.sessions sid = some sess' →
        sess'.learnedPromptPatterns = sess.learnedPromptPatterns)
    ∧ (∀ (s : SMState) (sid sig : String), (sendSignal s sid sig).2.1 = s)
    ∧ (∀ (s : SMState) (sid p : String) (sess sess' : SessionState),
        s.sessions sid = some sess →
        (setSessionReady s sid p).2.sessions sid = some sess' →
        sess'.learnedPromptPatterns = sess.learnedPromptPatterns)
    ∧ (∀ (s : SMState) (sid resp : String)
          (r : GuidanceOutcome × SMState × List Act) (sess sess' : SessionState),
        handleLLMGuidance s sid resp = Except.ok r → s.sessions sid = some sess →
        r.2.1.sessions sid = some sess' →
        ∃ suffix, sess'.learnedPromptPatterns = sess.learnedPromptPatterns ++ suffix)
    ∧ (∀ (s : SMState) (sid : String) (code : Int) (sess sess' : SessionState),
        s.sessions sid = some sess →
        (processExitUpdate s sid code).sessions sid = some sess' →
        sess'.learnedPromptPatterns = sess.learnedPromptPatterns) := by
  refine ⟨?_, ?_, ?_, ?_, ?_, ?_, ?_⟩
  · intro s sid sess p h hne hcon
    have hmem : p ∉ sess.learnedPromptPatterns := by simpa using hcon
    unfold applyGuidanceReady
    simp only [mapSet, if_pos rfl, Option.map_some]
    unfold learnedInsert
    simp [hne, hmem]
  · intro l p
    constructor
    · unfold learnedInsert
      by_cases hp : p = ""
      · simp [hp]
      · by_cases hc : p ∈ l
        · simp [hp, hc]
        · simp [hp, hc, List.mem_append]
    · unfold learnedInsert
      split
      · simp
      · simp
  · intro s sid input opts r sess sess' hok h h'
    unfold sendInput at hok
    rw [h] at hok
    dsimp only [] at hok
    rcases hproc : sess.process with _ | ph
    · rw [hproc] at hok
      simp at hok
    · rw [hproc] at hok
      dsimp only [] at hok
      simp only [Except.ok.injEq] at hok
      subst hok
      dsimp only [] at h'
      by_cases hw : opts.waitForPromptFlag = true
      · simp only [if_pos hw, mapSet, if_pos rfl, if_true, Option.some_inj] at h'
        subst h'
        rfl
      · simp only [if_neg hw, mapSet, if_pos rfl, if_true, Option.some_inj] at h'
        subst h'
        rfl
  · intro s sid sig
    rcases hsx : s.sessions sid with _ | sess
    · simp [sendSignal, hsx]
    · rcases hpx : sess.process with _ | ph
      · simp [sendSignal, hsx, hpx]
      · rcases hcx : controlCharFor sig with _ | c
        · simp [sendSignal, hsx, hpx, hcx]
        · simp [sendSignal, hsx, hpx, hcx]
  · intro s sid p sess sess' h h'
    unfold setSessionReady at h'
    rw [h] at h'
    simp only [mapSet, if_pos rfl, if_true, Option.some_inj] at h'
    subst h'
    rfl
  · intro s sid resp r sess sess' hok h h'
    unfold handleLLMGuidance at hok
    rw [h] at hok
    cases hg : parseLLMResponse resp with
    | ready pattern =>
      rw [hg] at hok
      simp only [Except.ok.injEq] at hok
      subst hok
      unfold applyGuidanceReady at h'
      simp only [mapSet, if_pos rfl, if_true, Option.some_inj] at h'
      subst h'
      unfold learnedInsert
      split
      · exact ⟨[pattern], rfl⟩
      · exact ⟨[], by simp⟩
    | send command =>
      rw [hg] at hok
      simp only [Except.ok.injEq] at hok
      subst hok
      rw [h] at h'
      simp only [Option.some_inj] at h'
      subst h'
      exact ⟨[], by simp⟩
    | wait seconds =>
      rw [hg] at hok
      simp only [Except.ok.injEq] at hok
      subst hok
      rw [h] at h'
      simp only [Option.some_inj] at h'
      subst h'
      exact ⟨[], by simp⟩
    | failed reason =>
      rw [hg] at hok
      simp only [Except.ok.injEq] at hok
      subst hok
      simp only [mapSet, if_pos rfl, if_true, Option.some_inj] at h'
      subst h'
      exact ⟨[], by simp⟩
  · intro s sid code sess sess' h h'
    unfold processExitUpdate at h'
    rw [h] at h'
    simp only [mapSet, if_pos rfl, if_true, Option.some_inj] at h'
    subst h'
    rfl

/-- Witness for C4 (amended): applying `Ready` with the fresh non-empty
pattern `myrepl>` to the sample session appends exactly that pattern. -/
theorem claimC4_witness :
    ((applyGuidanceReady sampleState "s1" sampleSession "myrepl>").sessions "s1").map
        (fun ss => ss.learnedPromptPatterns) = some ["myrepl>"]
    ∧ learnedInsert (learnedInsert [] "myrepl>") "myrepl>" = learnedInsert [] "myrepl>" := by
  constructor
  · exact claimC4_amended.1 sampleState "s1" sampleSession "myrepl>" rfl
      (by decide) rfl
  · exact (claimC4_amended.2.1 [] "myrepl>").1

/-! ### C5: when is the process handle set? -/

/-- C5, counterexample: `createSession` stores the spawned handle while the
session's status is still `initializing` (the status becomes `ready` only
after setup commands complete), so a reachable session refutes the claimed
equivalence between a non-null handle and status in
{ready, executing, error-with-live-process}. -/
theorem claimC5_counterexample :
    ¬ (∀ s : SessionState, SessReachable s →
        ((∃ ph, s.process = some ph) ↔ claimC5StatusSet s)) := by
  intro hall
  have hreach : SessReachable
      { initialSession "a" "python" with process := some { alive := true } } :=
    ⟨"a", "python",
      Relation.ReflTransGen.single (SessStep.spawn (initialSession "a" "python")
        { alive := true } rfl rfl)⟩
  have hset := (hall _ hreach).mp ⟨{ alive := true }, rfl⟩
  rcases hset with h1 | h1 | ⟨h1, -⟩ <;> exact absurd h1 (by decide)

/-- C5, amended: once spawned, a session's process handle is never unset — it
persists through `ready`, `executing`, `error` and `terminated` alike — and a
reachable session in status `executing` always has a handle; the handle is
absent only in states that never spawned (`initializing` before the spawn, or
`error`/`ready` states reached from them by status-only transitions). -/
theorem claimC5_amended :
    (∀ s s' : SessionState, SessStep s s' →
        s.process.isSome = true → s'.process.isSome = true)
    ∧ (∀ s : SessionState, SessReachable s →
        s.status = SessionStatus.executing → s.process.isSome = true) := by
  constructor
  · intro s s' hstep hp
    cases hstep <;> simp_all
  · rintro s ⟨id, ty, hr⟩
    induction hr with
    | refl =>
      intro hst
      exact absurd hst (by simp [initialSession])
    | tail hsteps hstep ih =>
      intro hst
      cases hstep <;> simp_all

/-- Witness for C5 (amended): a concrete step keeps the sample session's
handle, and the concrete reachable `executing` state after spawn and input
start has a handle. -/
theorem claimC5_witness :
    ({ sampleSession with status := SessionStatus.ready } : SessionState).process.isSome = true
    ∧ ({ initialSession "a" "python" with process := some { alive := true }, status := SessionStatus.executing } : SessionState).process.isSome = true := by
  constructor
  · exact claimC5_amended.1 sampleSession _ (SessStep.setReady sampleSession) rfl
  · refine claimC5_amended.2 _ ⟨"a", "python", ?_⟩ rfl
    refine Relation.ReflTransGen.tail (Relation.ReflTransGen.single
      (SessStep.spawn (initialSession "a" "python") { alive := true } rfl rfl)) ?_
    exact SessStep.inputStart _ rfl

/-! ### C6: destroy semantics -/

/-- C6: destroying an unknown id returns `false` and leaves the state (and
effect trace) untouched; destroying a known id returns `true`, removes the
session and its buffer from the registry maps even if the process handle is
already dead, and the effect trace kills the process handle (when one exists)
before removing the session from the registry. -/
theorem claimC6_destroy :
    ∀ (s : SMState) (sid : String),
      (s.sessions sid = none → destroySession s sid = (false, s, []))
      ∧ (∀ sess, s.sessions sid = some sess →
          (destroySession s sid).1 = true
          ∧ (destroySession s sid).2.1.sessions sid = none
          ∧ (destroySession s sid).2.1.outputBuffers sid = none
          ∧ (destroySession s sid).2.2
              = (match sess.process with
                 | some _ => [Act.killProc sid]
                 | none => []) ++ [Act.removeFromRegistry sid]) := by
  intro s sid
  constructor
  · intro h
    unfold destroySession
    rw [h]
  · intro sess h
    unfold destroySession
    rw [h]
    refine ⟨rfl, ?_, ?_, rfl⟩ <;> simp [mapRemove]

/-- Witness for C6: on the sample state, destroying the unknown id `zz`
returns `false` with no effects, while destroying `s1` (whose handle exists)
returns `true`, empties its registry entries, and kills before removing. -/
theorem claimC6_witness :
    destroySession sampleState "zz" = (false, sampleState, [])
    ∧ (destroySession sampleState "s1").1 = true
    ∧ (destroySession sampleState "s1").2.1.sessions "s1" = none
    ∧ (destroySession sampleState "s1").2.2
        = [Act.killProc "s1", Act.removeFromRegistry "s1"] := by
  have h := (claimC6_destroy sampleState "s1").2 sampleSession rfl
  exact ⟨(claimC6_destroy sampleState "zz").1 rfl, h.1, h.2.1, h.2.2.2⟩

/-! ### C7: pagination of `getFullOutput` -/

/-- C7, counterexample: with the three-character buffer `abc`, offset `5` and
limit `2` (both non-negative), `hasMore` is `false` although
`offset + length = 5 + 0 = 5` differs from `totalLength = 3` — the claimed
equivalence fails for offsets beyond the end of the buffer. -/
theorem claimC7_counterexample :
    (getFullOutput sampleStateAbc "s1" 5 2).hasMore = some false
    ∧ (getFullOutput sampleStateAbc "s1" 5 2).offset = some 5
    ∧ (getFullOutput sampleStateAbc "s1" 5 2).length = some 0
    ∧ (getFullOutput sampleStateAbc "s1" 5 2).totalLength = some 3
    ∧ 5 + 0 ≠ 3 := by
  exact ⟨rfl, rfl, rfl, rfl, by decide⟩

theorem getFullOutput_nonempty (s : SMState) (sid : String) (buf : String)
    (hbuf : s.outputBuffers sid = some buf) (hne : buf ≠ "") (off lim : Nat) :
    getFullOutput s sid off lim
      = { success := true,
          output := some (jsSliceNat buf off (min (off + lim) buf.length)),
          totalLength := some buf.length, offset := some off,
          length := some (jsSliceNat buf off (min (off + lim) buf.length)).length,
          hasMore := some (decide (min (off + lim) buf.length < buf.length)),
          nextOffset :=
            if decide (min (off + lim) buf.length < buf.length)
            then some (min (off + lim) buf.length) else none,
          error := none } := by
  unfold getFullOutput
  rw [hbuf]
  rw [show (some buf).getD "" = buf from rfl]
  rw [if_neg hne]

theorem jsSliceNat_length (buf : String) (a b : Nat) :
    (jsSliceNat buf a b).length = min b buf.length - a := by
  show ((buf.data.take b).drop a).length = min b buf.data.length - a
  rw [List.length_drop, List.length_take]

/-- C7, amended: for a non-empty buffer, the chunk at `(0, N)` concatenated
with the chunk at `(N, M)` is a contiguous prefix of the buffer (the second
chunk starts exactly where the first ends); `hasMore` is `false` exactly when
`offset + limit ≥ totalLength`, which for offsets within the buffer (`offset ≤
totalLength`) coincides with the claimed condition
`offset + length = totalLength` — beyond the buffer end the returned `length`
is `0` and the claimed equivalence does not hold. -/
theorem claimC7_amended :
    ∀ (s : SMState) (sid : String) (buf : String),
      s.outputBuffers sid = some buf → buf ≠ "" →
      (∀ N M : Nat,
        ∃ c1 c2 : String,
          (getFullOutput s sid 0 N).output = some c1
          ∧ (getFullOutput s sid N M).output = some c2
          ∧ c1.data.length = min N buf.data.length
          ∧ ∃ rest, buf.data = c1.data ++ c2.data ++ rest)
      ∧ (∀ offset limit : Nat,
          (getFullOutput s sid offset limit).hasMore
            = some (decide (offset + limit < buf.length))
          ∧ (offset ≤ buf.length →
              ((getFullOutput s sid offset limit).hasMore = some false ↔
                offset + ((getFullOutput s sid offset limit).length).getD 0
                  = buf.length))) := by
  intro s sid buf hbuf hne
  constructor
  · intro N M
    refine ⟨jsSliceNat buf 0 (min (0 + N) buf.length),
            jsSliceNat buf N (min (N + M) buf.length), ?_, ?_, ?_, ?_⟩
    · rw [getFullOutput_nonempty s sid buf hbuf hne 0 N]
    · rw [getFullOutput_nonempty s sid buf hbuf hne N M]
    · show ((buf.data.take (min (0 + N) buf.data.length)).drop 0).length
        = min N buf.data.length
      rw [List.drop_zero, List.length_take, Nat.zero_add]
      omega
    · refine ⟨buf.data.drop (min (N + M) buf.data.length), ?_⟩
      show buf.data
        = (buf.data.take (min (0 + N) buf.data.length)).drop 0
          ++ (buf.data.take (min (N + M) buf.data.length)).drop N
          ++ buf.data.drop (min (N + M) buf.data.length)
      rw [List.drop_zero, Nat.zero_add]
      by_cases hNL : N ≤ buf.data.length
      · rw [min_eq_left hNL]
        have hNK : N ≤ min (N + M) buf.data.length :=
          le_min (Nat.le_add_right N M) hNL
        have h1 : buf.data.take N
            ++ (buf.data.take (min (N + M) buf.data.length)).drop N
            = buf.data.take (min (N + M) buf.data.length) := by
          conv_rhs =>
            rw [← List.take_append_drop N (buf.data.take (min (N + M) buf.data.length))]
          rw [List.take_take, min_eq_left hNK]
        rw [h1, List.take_append_drop]
      · push_neg at hNL
        have hLN : buf.data.length ≤ N := le_of_lt hNL
        have hK : min (N + M) buf.data.length = buf.data.length :=
          min_eq_right (le_trans hLN (Nat.le_add_right N M))
        rw [min_eq_right hLN, hK, List.take_length]
        rw [List.drop_eq_nil_of_le hLN, List.drop_eq_nil_of_le (le_refl _)]
        simp
  · intro off lim
    constructor
    · rw [getFullOutput_nonempty s sid buf hbuf hne off lim]
      simp only [Option.some.injEq]
      exact decide_eq_decide.mpr (by omega)
    · intro hoff
      rw [getFullOutput_nonempty s sid buf hbuf hne off lim]
      simp only [Option.some.injEq, Option.getD_some, decide_eq_false_iff_not, not_lt,
        jsSliceNat_length]
      omega

/-- Witness for C7 (amended): concrete pagination over the buffer `abc`. -/
theorem claimC7_witness :
    (∃ c1 c2 : String,
      (getFullOutput sampleStateAbc "s1" 0 2).output = some c1
      ∧ (getFullOutput sampleStateAbc "s1" 2 2).output = some c2
      ∧ c1.data.length = min 2 ("abc".data.length)
      ∧ ∃ rest, "abc".data = c1.data ++ c2.data ++ rest)
    ∧ (getFullOutput sampleStateAbc "s1" 1 2).hasMore = some (decide (1 + 2 < "abc".length)) := by
  have h := claimC7_amended sampleStateAbc "s1" "abc" rfl (by decide)
  exact ⟨h.1 2 2, (h.2 1 2).1⟩

/-! ### C8: guidance parsing -/

theorem jsStartsWith_excl {t p q : String} {cp cq : Char} {ps qs : List Char}
    (hp : p.data = cp :: ps) (hq : q.data = cq :: qs) (hne : cp ≠ cq)
    (h : jsStartsWith t p = true) : jsStartsWith t q = false := by
  unfold jsStartsWith at h ⊢
  rw [hp] at h
  rw [hq]
  cases htd : t.data with
  | nil =>
    rw [htd] at h
    exact Bool.noConfusion h
  | cons a as =>
    rw [htd] at h
    have ha : a = cp := by
      by_contra hax
      rw [show listStartsWith (a :: as) (cp :: ps) = (decide (a = cp) && listStartsWith as ps)
        from rfl] at h
      simp [hax] at h
    rw [show listStartsWith (a :: as) (cq :: qs) = (decide (a = cq) && listStartsWith as qs)
      from rfl]
    simp [ha, hne]

/-- C8, counterexample: `WAIT:0` parses to `Wait 3`, not `Wait 0`, although
`parseInt("0")` yields `0` — the `|| 3` fallback also swallows a parsed zero
(and any unparseable seconds value), so the result is not always "the parsed
number of seconds". -/
theorem claimC8_counterexample :
    parseLLMResponse "WAIT:0" = LLMGuidance.wait 3
    ∧ jsParseInt "0" = some 0
    ∧ (3 : Int) ≠ 0 := by
  exact ⟨rfl, rfl, by decide⟩

/-- C8, amended: after trimming, a string starting with `READY:` maps to
`Ready` with the remainder as the pattern, `SEND:` to `Send` with the
remainder, `WAIT:` to `Wait` with the `parseInt` of the remainder except that
an unparseable or zero value falls back to 3 seconds, and `FAILED:` to
`Failed` with the remainder; a string starting with none of the four prefixes
degrades to `Failed` with a diagnostic reason. -/
theorem claimC8_parse :
    ∀ s : String,
      (jsStartsWith (jsTrim s) "READY:" = true →
        parseLLMResponse s = .ready (jsSubstringFrom (jsTrim s) 6))
      ∧ (jsStartsWith (jsTrim s) "SEND:" = true →
        parseLLMResponse s = .send (jsSubstringFrom (jsTrim s) 5))
      ∧ (jsStartsWith (jsTrim s) "WAIT:" = true →
        parseLLMResponse s
          = .wait (jsOrInt (jsParseInt (jsSubstringFrom (jsTrim s) 5)) 3))
      ∧ (jsStartsWith (jsTrim s) "FAILED:" = true →
        parseLLMResponse s = .failed (jsSubstringFrom (jsTrim s) 7))
      ∧ (jsStartsWith (jsTrim s) "READY:" = false →
         jsStartsWith (jsTrim s) "SEND:" = false →
         jsStartsWith (jsTrim s) "WAIT:" = false →
         jsStartsWith (jsTrim s) "FAILED:" = false →
        parseLLMResponse s = .failed ("Could not parse LLM response: " ++ s)) := by
  intro s
  refine ⟨?_, ?_, ?_, ?_, ?_⟩
  · intro h
    unfold parseLLMResponse
    rw [if_pos h]
  · intro h
    have hr : jsStartsWith (jsTrim s) "READY:" = false :=
      jsStartsWith_excl rfl rfl (by decide) h
    unfold parseLLMResponse
    rw [if_neg (by simp [hr]), if_pos h]
  · intro h
    have hr : jsStartsWith (jsTrim s) "READY:" = false :=
      jsStartsWith_excl rfl rfl (by decide) h
    have hs2 : jsStartsWith (jsTrim s) "SEND:" = false :=
      jsStartsWith_excl rfl rfl (by decide) h
    unfold parseLLMResponse
    rw [if_neg (by simp [hr]), if_neg (by simp [hs2]), if_pos h]
  · intro h
    have hr : jsStartsWith (jsTrim s) "READY:" = false :=
      jsStartsWith_excl rfl rfl (by decide) h
    have hs2 : jsStartsWith (jsTrim s) "SEND:" = false :=
      jsStartsWith_excl rfl rfl (by decide) h
    have hw : jsStartsWith (jsTrim s) "WAIT:" = false :=
      jsStartsWith_excl rfl rfl (by decide) h
    unfold parseLLMResponse
    rw [if_neg (by simp [hr]), if_neg (by simp [hs2]), if_neg (by simp [hw]), if_pos h]
  · intro h1 h2 h3 h4
    unfold parseLLMResponse
    rw [if_neg (by simp [h1]), if_neg (by simp [h2]), if_neg (by simp [h3]),
      if_neg (by simp [h4])]

/-- Witness for C8: concrete strings exercising every clause. -/
theorem claimC8_witness :
    parseLLMResponse " READY:>>> " = LLMGuidance.ready ">>>"
    ∧ parseLLMResponse "SEND:q" = LLMGuidance.send "q"
    ∧ parseLLMResponse "WAIT:10" = LLMGuidance.wait 10
    ∧ parseLLMResponse "FAILED:no prompt" = LLMGuidance.failed "no prompt"
    ∧ parseLLMResponse "hello" = LLMGuidance.failed ("Could not parse LLM response: hello") := by
  refine ⟨?_, ?_, ?_, ?_, ?_⟩
  · exact ((claimC8_parse " READY:>>> ").1 rfl).trans rfl
  · exact ((claimC8_parse "SEND:q").2.1 rfl).trans rfl
  · exact ((claimC8_parse "WAIT:10").2.2.1 rfl).trans rfl
  · exact ((claimC8_parse "FAILED:no prompt").2.2.2.1 rfl).trans rfl
  · exact (claimC8_parse "hello").2.2.2.2 rfl rfl rfl rfl

/-! ### C9: signal delivery is frame-preserving -/

/-- C9: for a session with a process handle, `sendSignal` with `SIGINT`,
`SIGTSTP` or `SIGQUIT` writes exactly the single control byte `0x03`, `0x1A`
or `0x1C` respectively to the PTY, reports success, and returns the manager
state unchanged — in particular the output buffer, status, history and
learned patterns of every session are untouched (no buffer clear, no
polling). -/
theorem claimC9_sendSignal :
    ∀ (s : SMState) (sid : String) (sess : SessionState) (ph : ProcHandle),
      s.sessions sid = some sess → sess.process = some ph →
      ((sendSignal s sid "SIGINT").2.2 = [Act.writePty sid (String.mk [Char.ofNat 3])]
       ∧ (sendSignal s sid "SIGTSTP").2.2 = [Act.writePty sid (String.mk [Char.ofNat 26])]
       ∧ (sendSignal s sid "SIGQUIT").2.2 = [Act.writePty sid (String.mk [Char.ofNat 28])])
      ∧ ((sendSignal s sid "SIGINT").1.success = true
         ∧ (sendSignal s sid "SIGTSTP").1.success = true
         ∧ (sendSignal s sid "SIGQUIT").1.success = true)
      ∧ (∀ sig, (sendSignal s sid sig).2.1 = s) := by
  intro s sid sess ph h hp
  refine ⟨⟨?_, ?_, ?_⟩, ⟨?_, ?_, ?_⟩, ?_⟩
  · simp [sendSignal, h, hp, controlCharFor]
  · simp [sendSignal, h, hp, controlCharFor]
  · simp [sendSignal, h, hp, controlCharFor]
  · simp [sendSignal, h, hp, controlCharFor]
  · simp [sendSignal, h, hp, controlCharFor]
  · simp [sendSignal, h, hp, controlCharFor]
  · intro sig
    rcases hcx : controlCharFor sig with _ | c
    · simp [sendSignal, h, hp, hcx]
    · simp [sendSignal, h, hp, hcx]

/-- Witness for C9: the sample session receives the interrupt byte and the
manager state is returned unchanged. -/
theorem claimC9_witness :
    (sendSignal sampleState "s1" "SIGINT").2.2
        = [Act.writePty "s1" (String.mk [Char.ofNat 3])]
    ∧ (sendSignal sampleState "s1" "SIGTSTP").2.1 = sampleState := by
  have h := claimC9_sendSignal sampleState "s1" sampleSession { alive := true } rfl rfl
  exact ⟨h.1.1, h.2.2 "SIGTSTP"⟩

/-! ### C10: the empty buffer is indistinguishable from a missing one -/

/-- C10: for a session present in the Registry whose output buffer is the
empty string, `getFullOutput` returns `success = false` with the
`No output buffer found` error — the same result as querying a state in which
the session does not exist at all — because JavaScript's `if (!fullOutput)`
treats the empty string as missing. -/
theorem claimC10_emptyBuffer :
    ∀ (s : SMState) (sid : String) (sess : SessionState) (offset limit : Nat),
      s.sessions sid = some sess → s.outputBuffers sid = some "" →
      getFullOutput s sid offset limit
        = { success := false, output := none, totalLength := none, offset := none,
            length := none, hasMore := none, nextOffset := none,
            error := some ("No output buffer found for session " ++ sid) }
      ∧ getFullOutput s sid offset limit = getFullOutput emptySMState sid offset limit := by
  intro s sid sess off lim hs hb
  have h1 : getFullOutput s sid off lim
      = { success := false, output := none, totalLength := none, offset := none,
          length := none, hasMore := none, nextOffset := none,
          error := some ("No output buffer found for session " ++ sid) } := by
    unfold getFullOutput
    rw [hb]
    rfl
  exact ⟨h1, h1.trans rfl⟩

/-- Witness for C10: the concrete state with an existing session and an empty
buffer produces the not-found error, exactly like the empty manager state. -/
theorem claimC10_witness :
    (getFullOutput sampleStateEmptyBuf "s1" 0 40000).success = false
    ∧ getFullOutput sampleStateEmptyBuf "s1" 0 40000
        = getFullOutput emptySMState "s1" 0 40000 := by
  have h := claimC10_emptyBuffer sampleStateEmptyBuf "s1" sampleSession 0 40000 rfl rfl
  exact ⟨by rw [h.1], h.2⟩

end ReplMcp
